import Mathlib

/-!
Shallow embedding of the Multicast Routing Manager of ot-br-posix
(`src/backbone_router/multicast_routing.hpp`), together with the IPv6
address utilities it uses (`Ip6Address`, from the repository's common
types).  Kernel syscalls (`setsockopt`, `ioctl`, `socket`,
`if_nametoindex`) are modelled by explicit environments recording, for
each possible call, the result the kernel would return; each manager
operation returns the updated manager state together with the list of
kernel MFC actions (`MRT6_ADD_MFC` / `MRT6_DEL_MFC`) it issued.
-/

namespace MulticastRoutingManager

/-- An IPv6 address is a 16-byte value; we model it as the list of its
bytes in network order (`m8` in the source). -/
abbrev Ip6Address := List Nat

/-- Byte `i` of an address (`m8[i]`). -/
def m8 (a : Ip6Address) (i : Nat) : Nat := a.getD i 0

/-- The 16-bit word `i` of an address read in network byte order
(`m16[i]` compared against `htons`/`htonl` constants in the source). -/
def m16 (a : Ip6Address) (i : Nat) : Nat := m8 a (2 * i) * 256 + m8 a (2 * i + 1)

/-- The 32-bit word `i` of an address read in network byte order (`m32[i]`). -/
def m32 (a : Ip6Address) (i : Nat) : Nat :=
  ((m8 a (4 * i) * 256 + m8 a (4 * i + 1)) * 256 + m8 a (4 * i + 2)) * 256 + m8 a (4 * i + 3)

/-- Modelled from the spec: `is_multicast() ≡ byte 0 equals 0xFF`
(`Ip6Address::IsMulticast` lives in `common/types.hpp`, which is not in
the provided sources). -/
def IsMulticast (a : Ip6Address) : Bool := m8 a 0 = 0xff

/-- Source `Ip6Address::IsLinkLocal`: the top ten bits of the first 16-bit word
are `fe80` (the byte-order conversions in the source compare the word in
network order). -/
def IsLinkLocal (a : Ip6Address) : Bool := m16 a 0 &&& 0xffc0 = 0xfe80

/-- Source `Ip6Address::IsLoopback`: all four 32-bit words are zero except the
last, which is 1 in network order. -/
def IsLoopback (a : Ip6Address) : Bool :=
  m32 a 0 = 0 && m32 a 1 = 0 && m32 a 2 = 0 && m32 a 3 = 1

/-- Modelled from the spec: scope constants (`kNodeLocalScope = 0x1`,
`kLinkLocalScope = 0x2`, `kRealmLocalScope = 0x3`, `kGlobalScope = 0xE`);
the constants are declared in `common/types.hpp`, which is not in the
provided sources, with the values the spec lists. -/
def kNodeLocalScope : Nat := 0x1

/-- Modelled from the spec: link-local scope constant. -/
def kLinkLocalScope : Nat := 0x2

/-- Modelled from the spec: realm-local scope constant. -/
def kRealmLocalScope : Nat := 0x3

/-- Modelled from the spec: global scope constant. -/
def kGlobalScope : Nat := 0xe

/-- Source `Ip6Address::GetScope`: low nibble of byte 1 for multicast
addresses, otherwise classified by link-local / loopback / global. -/
def GetScope (a : Ip6Address) : Nat :=
  if IsMulticast a then m8 a 1 &&& 0xf
  else if IsLinkLocal a then kLinkLocalScope
  else if IsLoopback a then kNodeLocalScope
  else kGlobalScope

/-- Modelled from the spec: the total order on `Ip6Address` is bytewise
lexicographic (`memcmp` in `common/types.hpp`, not in the provided
sources). -/
def ip6Lt : Ip6Address → Ip6Address → Bool
  | [], [] => false
  | [], _ :: _ => true
  | _ :: _, [] => false
  | a :: as, b :: bs => if a < b then true else if b < a then false else ip6Lt as bs

/-- MIF indices (`enum MifIndex : uint8_t`); an arbitrary byte can be
cast into the type (`static_cast<MifIndex>(mrt6msg->im6_mif)`), so we
model the type as `Nat` with the three named values. -/
def kMifIndexNone : Nat := 0xff

/-- Constant `kMifIndexThread = 0`. -/
def kMifIndexThread : Nat := 0

/-- Constant `kMifIndexBackbone = 1`. -/
def kMifIndexBackbone : Nat := 1

/-- Source `MulticastRoute`: the key of the Multicast Forwarding Cache. -/
structure MulticastRoute where
  mSrcAddr : Ip6Address
  mGroupAddr : Ip6Address
deriving DecidableEq, Repr

/-- Source `MulticastRoute::operator<`: compare the group addresses first and,
when they are equal, the source addresses. -/
def routeLt (a b : MulticastRoute) : Bool :=
  if a.mGroupAddr ≠ b.mGroupAddr then ip6Lt a.mGroupAddr b.mGroupAddr
  else if a.mSrcAddr ≠ b.mSrcAddr then ip6Lt a.mSrcAddr b.mSrcAddr
  else false

/-- Source `MulticastRouteInfo`: the value stored in the MFC.  Time points
(`std::chrono::steady_clock::time_point`) are modelled as natural
numbers of seconds; `mValidPktCnt` is an `unsigned long` (64-bit). -/
structure MulticastRouteInfo where
  mLastUseTime : Nat
  mValidPktCnt : Nat
  mOif : Nat
  mIif : Nat
deriving DecidableEq, Repr

/-- Constant `kMulticastForwardingCacheExpireTimeout = 300` seconds. -/
def kMulticastForwardingCacheExpireTimeout : Nat := 300

/-- The 64-bit modulus for `unsigned long` arithmetic. -/
def U64 : Nat := 2 ^ 64

/-- Wrapping 64-bit subtraction (`sioc_sg_req6.pktcnt - sioc_sg_req6.wrong_if`
on `unsigned long` operands). -/
def sub64 (a b : Nat) : Nat := (a + (U64 - b % U64)) % U64

/-- The manager state: the raw-socket fd (`-1` when closed), the
listener set and the in-memory Multicast Forwarding Cache
(`std::map<MulticastRoute, MulticastRouteInfo>`, modelled as an
association list with unique keys). -/
structure MRMState where
  mMulticastRouterSock : Int
  mListenerSet : List Ip6Address
  mMulticastForwardingCache : List (MulticastRoute × MulticastRouteInfo)
deriving DecidableEq, Repr

/-- The constructor's initial state: socket `-1`, both containers empty. -/
def initialState : MRMState := ⟨-1, [], []⟩

/-- Source `IsEnabled`: `mMulticastRouterSock >= 0`. -/
def IsEnabled (st : MRMState) : Bool := decide (0 ≤ st.mMulticastRouterSock)

/-- Keys of an MFC association list. -/
def mfcKeys (m : List (MulticastRoute × MulticastRouteInfo)) : List MulticastRoute :=
  m.map Prod.fst

/-- Map lookup (`std::map::find`). -/
def mfcLookup (m : List (MulticastRoute × MulticastRouteInfo)) (k : MulticastRoute) :
    Option MulticastRouteInfo :=
  match m with
  | [] => none
  | (k', v) :: rest => if k' = k then some v else mfcLookup rest k

/-- Map assignment (`mMulticastForwardingCache[key] = value`): overwrite
the entry when the key is present, append it otherwise. -/
def mfcInsert (m : List (MulticastRoute × MulticastRouteInfo)) (k : MulticastRoute)
    (v : MulticastRouteInfo) : List (MulticastRoute × MulticastRouteInfo) :=
  if k ∈ mfcKeys m then m.map (fun e => if e.1 = k then (k, v) else e) else m ++ [(k, v)]

/-- Result of a `setsockopt(MRT6_DEL_MFC)` call: success, failure with
`errno == ENOENT`, or failure with another errno. -/
inductive DelResult where
  | ok
  | enoent
  | err
deriving DecidableEq, Repr

/-- The per-route counters an `ioctl(SIOCGETSGCNT_IN6)` returns. -/
structure SgCounters where
  bytecnt : Nat
  pktcnt : Nat
  wrong_if : Nat
deriving DecidableEq, Repr

/-- The kernel's responses to the syscalls the running manager issues,
keyed by the `(origin, group)` pair carried in the request. -/
structure KernelEnv where
  addMfcOk : Ip6Address → Ip6Address → Bool
  delMfc : Ip6Address → Ip6Address → DelResult
  sgCnt : Ip6Address → Ip6Address → Option SgCounters

/-- A kernel MFC action issued through the multicast-router socket. -/
inductive KAction where
  | addMfc (origin group : Ip6Address) (parent : Nat) (ifset : List Nat)
  | delMfc (origin group : Ip6Address) (parent : Nat)
deriving DecidableEq, Repr

/-- The `otbrError` values the embedded functions produce. -/
inductive OtbrError where
  | noError
  | errno
  | invalidArgs
deriving DecidableEq, Repr

/-- Source `UpdateMulticastRouteInfo`, acting on the entry for `route` (the
C++ version reads and writes `mMulticastForwardingCache[route]`; at
every call site `route` is the entry currently under iteration, so we
pass its info directly).  Returns `updated` and the new info. -/
def UpdateMulticastRouteInfo (env : KernelEnv) (now : Nat) (route : MulticastRoute)
    (info : MulticastRouteInfo) : Bool × MulticastRouteInfo :=
  match env.sgCnt route.mSrcAddr route.mGroupAddr with
  | some c =>
      let validPktCnt := sub64 c.pktcnt c.wrong_if
      if validPktCnt ≠ info.mValidPktCnt then
        (true, { info with mValidPktCnt := c.pktcnt, mLastUseTime := now })
      else
        (false, info)
  | none => (false, info)

/-- One iteration of the loop in `ExpireMulticastForwardingCache`:
returns the surviving entry (or `none` when it is erased) and the kernel
actions issued. -/
def ExpireEntry (env : KernelEnv) (now : Nat) (e : MulticastRoute × MulticastRouteInfo) :
    Option (MulticastRoute × MulticastRouteInfo) × List KAction :=
  if e.2.mLastUseTime + kMulticastForwardingCacheExpireTimeout < now then
    match UpdateMulticastRouteInfo env now e.1 e.2 with
    | (true, info') => (some (e.1, info'), [])
    | (false, info') =>
        match env.delMfc e.1.mSrcAddr e.1.mGroupAddr with
        | DelResult.ok => (none, [KAction.delMfc e.1.mSrcAddr e.1.mGroupAddr e.2.mIif])
        | DelResult.enoent => (none, [KAction.delMfc e.1.mSrcAddr e.1.mGroupAddr e.2.mIif])
        | DelResult.err =>
            (some (e.1, info'), [KAction.delMfc e.1.mSrcAddr e.1.mGroupAddr e.2.mIif])
  else
    (some e, [])

/-- Source `ExpireMulticastForwardingCache`: scan the MFC, refresh still-live
over-age entries and erase inactive ones (kernel delete succeeding or
failing with `ENOENT`). -/
def ExpireMulticastForwardingCache (env : KernelEnv) (now : Nat) (st : MRMState) :
    MRMState × List KAction :=
  ({ st with
      mMulticastForwardingCache :=
        st.mMulticastForwardingCache.filterMap (fun e => (ExpireEntry env now e).1) },
   (st.mMulticastForwardingCache.map (fun e => (ExpireEntry env now e).2)).flatten)

/-- Source `AddMulticastForwardingCache`: validate the inbound MIF, run the
expiry pass, compute the forward MIF from the policy, install the kernel
MFC entry and record it in memory on success. -/
def AddMulticastForwardingCache (env : KernelEnv) (now : Nat) (st : MRMState)
    (aSrcAddr aGroupAddr : Ip6Address) (aIif : Nat) :
    OtbrError × MRMState × List KAction :=
  if aIif ≠ kMifIndexThread ∧ aIif ≠ kMifIndexBackbone then
    (OtbrError.invalidArgs, st, [])
  else
    let expired := ExpireMulticastForwardingCache env now st
    let st1 := expired.1
    let forwardMif : Nat :=
      if aIif = kMifIndexBackbone then
        if aGroupAddr ∈ st1.mListenerSet then kMifIndexThread else kMifIndexNone
      else
        if kRealmLocalScope < GetScope aGroupAddr then kMifIndexBackbone else kMifIndexNone
    let ifset : List Nat := if forwardMif ≠ kMifIndexNone then [forwardMif] else []
    let act := KAction.addMfc aSrcAddr aGroupAddr aIif ifset
    if env.addMfcOk aSrcAddr aGroupAddr then
      (OtbrError.noError,
       { st1 with
          mMulticastForwardingCache :=
            mfcInsert st1.mMulticastForwardingCache ⟨aSrcAddr, aGroupAddr⟩
              ⟨now, 0, forwardMif, aIif⟩ },
       expired.2 ++ [act])
    else
      (OtbrError.errno, st1, expired.2 ++ [act])

/-- One iteration of the loop in `UnblockInboundMulticastForwardingCache`:
entries with `mIif ≠ Backbone`, `mOif = Thread` or a different group are
skipped; matching ones get a kernel `MRT6_ADD_MFC` with ifset `{Thread}`
and, on success, a fresh info with `mOif = Thread`. -/
def UnblockEntry (env : KernelEnv) (now : Nat) (aGroupAddr : Ip6Address)
    (e : MulticastRoute × MulticastRouteInfo) :
    (MulticastRoute × MulticastRouteInfo) × List KAction :=
  if e.2.mIif ≠ kMifIndexBackbone ∨ e.2.mOif = kMifIndexThread ∨
      e.1.mGroupAddr ≠ aGroupAddr then
    (e, [])
  else
    if env.addMfcOk e.1.mSrcAddr e.1.mGroupAddr then
      ((e.1, ⟨now, 0, kMifIndexThread, e.2.mIif⟩),
       [KAction.addMfc e.1.mSrcAddr aGroupAddr kMifIndexBackbone [kMifIndexThread]])
    else
      (e, [KAction.addMfc e.1.mSrcAddr aGroupAddr kMifIndexBackbone [kMifIndexThread]])

/-- Source `UnblockInboundMulticastForwardingCache`. -/
def UnblockInboundMulticastForwardingCache (env : KernelEnv) (now : Nat) (st : MRMState)
    (aGroupAddr : Ip6Address) : MRMState × List KAction :=
  ({ st with
      mMulticastForwardingCache :=
        st.mMulticastForwardingCache.map (fun e => (UnblockEntry env now aGroupAddr e).1) },
   (st.mMulticastForwardingCache.map (fun e => (UnblockEntry env now aGroupAddr e).2)).flatten)

/-- One iteration of the loop in `RemoveInboundMulticastForwardingCache`:
entries with `mIif = Backbone` and the given group get a kernel
`MRT6_DEL_MFC` and are erased when it succeeds or fails with `ENOENT`. -/
def RemoveEntry (env : KernelEnv) (aGroupAddr : Ip6Address)
    (e : MulticastRoute × MulticastRouteInfo) :
    Option (MulticastRoute × MulticastRouteInfo) × List KAction :=
  if e.2.mIif = kMifIndexBackbone ∧ e.1.mGroupAddr = aGroupAddr then
    match env.delMfc e.1.mSrcAddr e.1.mGroupAddr with
    | DelResult.ok => (none, [KAction.delMfc e.1.mSrcAddr aGroupAddr kMifIndexBackbone])
    | DelResult.enoent => (none, [KAction.delMfc e.1.mSrcAddr aGroupAddr kMifIndexBackbone])
    | DelResult.err => (some e, [KAction.delMfc e.1.mSrcAddr aGroupAddr kMifIndexBackbone])
  else
    (some e, [])

/-- The selective erase loop of `RemoveInboundMulticastForwardingCache`
(everything before the final `mMulticastForwardingCache.clear()`). -/
def RemoveInboundLoop (env : KernelEnv) (st : MRMState) (aGroupAddr : Ip6Address) :
    MRMState × List KAction :=
  ({ st with
      mMulticastForwardingCache :=
        st.mMulticastForwardingCache.filterMap (fun e => (RemoveEntry env aGroupAddr e).1) },
   (st.mMulticastForwardingCache.map (fun e => (RemoveEntry env aGroupAddr e).2)).flatten)

/-- Source `RemoveInboundMulticastForwardingCache`: the selective erase loop,
followed by the unconditional `mMulticastForwardingCache.clear()` the
source performs after the loop. -/
def RemoveInboundMulticastForwardingCache (env : KernelEnv) (st : MRMState)
    (aGroupAddr : Ip6Address) : MRMState × List KAction :=
  let looped := RemoveInboundLoop env st aGroupAddr
  ({ looped.1 with mMulticastForwardingCache := [] }, looped.2)

/-- Source `Add`: record the listener and, when enabled, unblock the matching
inbound MFC entries.  (The caller guarantees the address is not yet in
the listener set; `std::set::insert` is modelled set-wise.) -/
def Add (env : KernelEnv) (now : Nat) (st : MRMState) (aAddress : Ip6Address) :
    MRMState × List KAction :=
  let st1 :=
    { st with
       mListenerSet :=
         if aAddress ∈ st.mListenerSet then st.mListenerSet else aAddress :: st.mListenerSet }
  if IsEnabled st1 then UnblockInboundMulticastForwardingCache env now st1 aAddress
  else (st1, [])

/-- Source `Remove`: erase the listener and, when enabled, remove the matching
inbound MFC entries. -/
def Remove (env : KernelEnv) (st : MRMState) (aAddress : Ip6Address) :
    MRMState × List KAction :=
  let st1 :=
    { st with mListenerSet := st.mListenerSet.filter (fun x => decide (x ≠ aAddress)) }
  if IsEnabled st1 then RemoveInboundMulticastForwardingCache env st1 aAddress
  else (st1, [])

/-- Source `FinalizeMulticastRouterSock`: close the socket when it is open; the
in-memory MFC is left as it is. -/
def FinalizeMulticastRouterSock (st : MRMState) : MRMState :=
  if st.mMulticastRouterSock ≠ -1 then { st with mMulticastRouterSock := -1 } else st

/-- Source `Disable`: finalize the socket when enabled. -/
def Disable (st : MRMState) : MRMState :=
  if IsEnabled st then FinalizeMulticastRouterSock st else st

/-- The results of the syscalls `InitMulticastRouterSock` issues, in
program order: `socket()` (`none` = failed, `some fd` with the returned
descriptor), `setsockopt(MRT6_INIT)`, `setsockopt(ICMP6_FILTER)`,
`if_nametoindex` for the Thread and Backbone interfaces (`0` = lookup
failed) and the two `setsockopt(MRT6_ADD_MIF)` calls. -/
structure InitEnv where
  socketFd : Option Nat
  mrt6InitOk : Bool
  icmp6FilterOk : Bool
  threadIfIndex : Nat
  addMifThreadOk : Bool
  backboneIfIndex : Nat
  addMifBackboneOk : Bool

/-- Source `InitMulticastRouterSock`: run the enable sequence, finalizing the
socket on any failure. -/
def InitMulticastRouterSock (env : InitEnv) (st : MRMState) : OtbrError × MRMState :=
  if st.mMulticastRouterSock ≠ -1 then (OtbrError.noError, st)
  else
    match env.socketFd with
    | none => (OtbrError.errno, FinalizeMulticastRouterSock st)
    | some fd =>
        let st1 := { st with mMulticastRouterSock := (fd : Int) }
        if ¬ env.mrt6InitOk then (OtbrError.errno, FinalizeMulticastRouterSock st1)
        else if ¬ env.icmp6FilterOk then (OtbrError.errno, FinalizeMulticastRouterSock st1)
        else if env.threadIfIndex = 0 then (OtbrError.errno, FinalizeMulticastRouterSock st1)
        else if ¬ env.addMifThreadOk then (OtbrError.errno, FinalizeMulticastRouterSock st1)
        else if env.backboneIfIndex = 0 then (OtbrError.errno, FinalizeMulticastRouterSock st1)
        else if ¬ env.addMifBackboneOk then (OtbrError.errno, FinalizeMulticastRouterSock st1)
        else (OtbrError.noError, st1)

/-- Source `Enable`: a no-op when already enabled, otherwise run
`InitMulticastRouterSock`. -/
def Enable (env : InitEnv) (st : MRMState) : MRMState :=
  if IsEnabled st then st else (InitMulticastRouterSock env st).2

/-- The states the manager can reach from construction through its
public operations; an upcall (`Process` → `ProcessMulticastRouterMessages`
→ `AddMulticastForwardingCache`) is only delivered while enabled. -/
inductive Reachable : MRMState → Prop where
  | init : Reachable initialState
  | enable (env : InitEnv) {s : MRMState} : Reachable s → Reachable (Enable env s)
  | disable {s : MRMState} : Reachable s → Reachable (Disable s)
  | add (env : KernelEnv) (now : Nat) (a : Ip6Address) {s : MRMState} :
      Reachable s → Reachable (Add env now s a).1
  | remove (env : KernelEnv) (a : Ip6Address) {s : MRMState} :
      Reachable s → Reachable (Remove env s a).1
  | upcall (env : KernelEnv) (now : Nat) (src dst : Ip6Address) (iif : Nat) {s : MRMState} :
      Reachable s → IsEnabled s = true →
      Reachable (AddMulticastForwardingCache env now s src dst iif).2.1


/-- Address `2001:db8::1`, the Backbone-side source of the scenario traces. -/
def srcA : Ip6Address := [0x20, 0x01, 0x0d, 0xb8, 0, 0, 0, 0, 0, 0, 0, 0, 0, 0, 0, 1]

/-- Address `fd00::2`, the Thread-side source of the scenario traces. -/
def srcB : Ip6Address := [0xfd, 0, 0, 0, 0, 0, 0, 0, 0, 0, 0, 0, 0, 0, 0, 2]

/-- Address `ff05::abcd`, the listener group of the scenario traces. -/
def grpG1 : Ip6Address := [0xff, 0x05, 0, 0, 0, 0, 0, 0, 0, 0, 0, 0, 0, 0, 0xab, 0xcd]

/-- Address `ff0e::1`, a global-scope group. -/
def grpG2 : Ip6Address := [0xff, 0x0e, 0, 0, 0, 0, 0, 0, 0, 0, 0, 0, 0, 0, 0, 1]

/-- A kernel that accepts every MFC install and delete and never
answers a counter query. -/
def traceKernel : KernelEnv :=
  { addMfcOk := fun _ _ => true, delMfc := fun _ _ => DelResult.ok, sgCnt := fun _ _ => none }

/-- An enable environment in which every setup step succeeds
(`socket()` returns fd 3, interface indices 5 and 6). -/
def traceInit : InitEnv :=
  { socketFd := some 3, mrt6InitOk := true, icmp6FilterOk := true, threadIfIndex := 5,
    addMifThreadOk := true, backboneIfIndex := 6, addMifBackboneOk := true }

/-- State after `Enable`. -/
def traceS1 : MRMState := Enable traceInit initialState

/-- State after `Add(ff05::abcd)` (listener registration). -/
def traceS2 : MRMState := (Add traceKernel 0 traceS1 grpG1).1

/-- State after a Thread-side upcall for the global group `ff0e::1`. -/
def traceS3 : MRMState :=
  (AddMulticastForwardingCache traceKernel 10 traceS2 srcB grpG2 kMifIndexThread).2.1

/-- State after a Backbone-side upcall for the listener group. -/
def traceS4 : MRMState :=
  (AddMulticastForwardingCache traceKernel 20 traceS3 srcA grpG1 kMifIndexBackbone).2.1


/-- Modelled from the spec (the policy table of §4.F), for comparison with
the MIF computed by `AddMulticastForwardingCache`: Backbone-inbound traffic
forwards to Thread exactly for registered listener groups, Thread-inbound
traffic forwards to Backbone exactly for scopes wider than realm-local. -/
def specPolicyOif (listeners : List Ip6Address) (grp : Ip6Address) (iif : Nat) : Nat :=
  if iif = kMifIndexBackbone then
    if grp ∈ listeners then kMifIndexThread else kMifIndexNone
  else
    if kRealmLocalScope < GetScope grp then kMifIndexBackbone else kMifIndexNone

/-- An enabled manager holding one over-age MFC entry
(`last_use = 0`, `valid_pkt_cnt = 5`, iif Backbone, oif Thread). -/
def c3State : MRMState :=
  ⟨3, [], [(⟨srcA, grpG1⟩, ⟨0, 5, kMifIndexThread, kMifIndexBackbone⟩)]⟩

/-- A kernel whose counter queries succeed with `pktcnt = 7`, `wrong_if = 0`. -/
def c5Kernel : KernelEnv :=
  { addMfcOk := fun _ _ => true, delMfc := fun _ _ => DelResult.ok,
    sgCnt := fun _ _ => some ⟨0, 7, 0⟩ }

/-- An enabled manager holding one blocked Backbone-inbound MFC entry. -/
def c8State : MRMState :=
  ⟨3, [], [(⟨srcA, grpG1⟩, ⟨0, 0, kMifIndexNone, kMifIndexBackbone⟩)]⟩

/-- Irreflexivity of the bytewise order. -/
theorem ip6Lt_irrefl (a : Ip6Address) : ip6Lt a a = false := by
  induction a with
  | nil => rfl
  | cons x xs ih => simp [ip6Lt, ih]

/-- Asymmetry of the bytewise order. -/
theorem ip6Lt_asymm (a b : Ip6Address) (h : ip6Lt a b = true) : ip6Lt b a = false := by
  induction a generalizing b with
  | nil =>
    cases b with
    | nil => simp [ip6Lt] at h
    | cons y ys => rfl
  | cons x xs ih =>
    cases b with
    | nil => simp [ip6Lt] at h
    | cons y ys =>
      simp only [ip6Lt] at h ⊢
      by_cases h1 : x < y
      · have h2 : ¬ y < x := Nat.lt_asymm h1
        simp [h1, h2]
      · by_cases h2 : y < x
        · simp [h1, h2] at h
        · simp only [h1, h2, if_false] at h ⊢
          exact ih _ h

/-- Totality of the bytewise order. -/
theorem ip6Lt_trichotomy (a b : Ip6Address) :
    ip6Lt a b = true ∨ ip6Lt b a = true ∨ a = b := by
  induction a generalizing b with
  | nil =>
    cases b with
    | nil => right; right; rfl
    | cons y ys => left; rfl
  | cons x xs ih =>
    cases b with
    | nil => right; left; rfl
    | cons y ys =>
      rcases Nat.lt_trichotomy x y with h | h | h
      · left; simp [ip6Lt, h]
      · subst h
        rcases ih ys with h2 | h2 | h2
        · left; simp [ip6Lt, h2]
        · right; left; simp [ip6Lt, h2]
        · right; right; rw [h2]
      · right; left; simp [ip6Lt, h]

/-- C9: the ordering on `MulticastRoute` is a strict total order — for any two
routes exactly one of `a < b`, `b < a`, `a = b` holds — and `a < b` is decided
first by bytewise comparison of the group addresses and, when the groups are
equal, by bytewise comparison of the source addresses. -/
theorem c9_route_order_strict_total (a b : MulticastRoute) :
    ((routeLt a b = true ∧ routeLt b a = false ∧ a ≠ b) ∨
      (routeLt b a = true ∧ routeLt a b = false ∧ a ≠ b) ∨
      (a = b ∧ routeLt a b = false ∧ routeLt b a = false)) ∧
    (a.mGroupAddr ≠ b.mGroupAddr → routeLt a b = ip6Lt a.mGroupAddr b.mGroupAddr) ∧
    (a.mGroupAddr = b.mGroupAddr → routeLt a b = ip6Lt a.mSrcAddr b.mSrcAddr) := by
  refine ⟨?_, ?_, ?_⟩
  · by_cases hg : a.mGroupAddr = b.mGroupAddr
    · by_cases hs : a.mSrcAddr = b.mSrcAddr
      · have hab : a = b := by
          cases a; cases b; simp_all
        subst hab
        exact Or.inr (Or.inr ⟨rfl, by simp [routeLt], by simp [routeLt]⟩)
      · rcases ip6Lt_trichotomy a.mSrcAddr b.mSrcAddr with h | h | h
        · refine Or.inl ⟨?_, ?_, ?_⟩
          · simp [routeLt, hg, hs, h]
          · simp [routeLt, hg.symm, Ne.symm hs, ip6Lt_asymm _ _ h]
          · intro hab; exact hs (by rw [hab])
        · refine Or.inr (Or.inl ⟨?_, ?_, ?_⟩)
          · simp [routeLt, hg.symm, Ne.symm hs, h]
          · simp [routeLt, hg, hs, ip6Lt_asymm _ _ h]
          · intro hab; exact hs (by rw [hab])
        · exact absurd h hs
    · rcases ip6Lt_trichotomy a.mGroupAddr b.mGroupAddr with h | h | h
      · refine Or.inl ⟨?_, ?_, ?_⟩
        · simp [routeLt, hg, h]
        · simp [routeLt, Ne.symm hg, ip6Lt_asymm _ _ h]
        · intro hab; exact hg (by rw [hab])
      · refine Or.inr (Or.inl ⟨?_, ?_, ?_⟩)
        · simp [routeLt, Ne.symm hg, h]
        · simp [routeLt, hg, ip6Lt_asymm _ _ h]
        · intro hab; exact hg (by rw [hab])
      · exact absurd h hg
  · intro hg; simp [routeLt, hg]
  · intro hg
    by_cases hs : a.mSrcAddr = b.mSrcAddr
    · simp [routeLt, hg, hs, ip6Lt_irrefl]
    · simp [routeLt, hg, hs]

/-- Witness for C9 at two concrete routes. -/
theorem c9_route_order_strict_total_witness :
    ((routeLt ⟨srcA, grpG1⟩ ⟨srcB, grpG2⟩ = true ∧
        routeLt ⟨srcB, grpG2⟩ ⟨srcA, grpG1⟩ = false ∧
        (⟨srcA, grpG1⟩ : MulticastRoute) ≠ ⟨srcB, grpG2⟩) ∨
      (routeLt ⟨srcB, grpG2⟩ ⟨srcA, grpG1⟩ = true ∧
        routeLt ⟨srcA, grpG1⟩ ⟨srcB, grpG2⟩ = false ∧
        (⟨srcA, grpG1⟩ : MulticastRoute) ≠ ⟨srcB, grpG2⟩) ∨
      ((⟨srcA, grpG1⟩ : MulticastRoute) = ⟨srcB, grpG2⟩ ∧
        routeLt ⟨srcA, grpG1⟩ ⟨srcB, grpG2⟩ = false ∧
        routeLt ⟨srcB, grpG2⟩ ⟨srcA, grpG1⟩ = false)) ∧
    ((⟨srcA, grpG1⟩ : MulticastRoute).mGroupAddr ≠
        (⟨srcB, grpG2⟩ : MulticastRoute).mGroupAddr →
      routeLt ⟨srcA, grpG1⟩ ⟨srcB, grpG2⟩ = ip6Lt grpG1 grpG2) ∧
    ((⟨srcA, grpG1⟩ : MulticastRoute).mGroupAddr =
        (⟨srcB, grpG2⟩ : MulticastRoute).mGroupAddr →
      routeLt ⟨srcA, grpG1⟩ ⟨srcB, grpG2⟩ = ip6Lt srcA srcB) :=
  c9_route_order_strict_total ⟨srcA, grpG1⟩ ⟨srcB, grpG2⟩

/-- C7: an upcall whose inbound MIF is neither Thread (0) nor Backbone (1) is
rejected with `InvalidArgs`; the state is returned unchanged (so the in-memory
MFC is untouched and no expiry pass ran) and no kernel action is issued. -/
theorem c7_invalid_iif_rejected (env : KernelEnv) (now : Nat) (st : MRMState)
    (src grp : Ip6Address) (aIif : Nat)
    (h1 : aIif ≠ kMifIndexThread) (h2 : aIif ≠ kMifIndexBackbone) :
    AddMulticastForwardingCache env now st src grp aIif =
      (OtbrError.invalidArgs, st, []) := by
  simp [AddMulticastForwardingCache, h1, h2]

/-- Witness for C7: MIF index 7 is rejected without touching the state. -/
theorem c7_invalid_iif_rejected_witness :
    AddMulticastForwardingCache traceKernel 0 traceS4 srcA grpG1 7 =
      (OtbrError.invalidArgs, traceS4, []) :=
  c7_invalid_iif_rejected traceKernel 0 traceS4 srcA grpG1 7 (by decide) (by decide)

/-- C10: `Enable` on an already-enabled manager is a no-op — the whole state
(socket fd, listener set, in-memory MFC) is returned unchanged. -/
theorem c10_enable_on_enabled_noop (env : InitEnv) (st : MRMState)
    (hen : IsEnabled st = true) : Enable env st = st := by
  simp [Enable, hen]

/-- Witness for C10 on a concrete enabled state. -/
theorem c10_enable_on_enabled_noop_witness :
    IsEnabled traceS4 = true ∧ Enable traceInit traceS4 = traceS4 :=
  ⟨by decide, c10_enable_on_enabled_noop traceInit traceS4 (by decide)⟩

/-- The socket field is `-1` after `FinalizeMulticastRouterSock`, whether or
not the socket was open. -/
theorem finalize_sock (st : MRMState) :
    (FinalizeMulticastRouterSock st).mMulticastRouterSock = -1 := by
  unfold FinalizeMulticastRouterSock
  split
  · rfl
  · rename_i h
    simpa using h

/-- Rollback shape shared by every failing branch of the enable sequence. -/
theorem rollback_of_eq {env : InitEnv} {st : MRMState} (st1 : MRMState)
    (h : InitMulticastRouterSock env st =
      (OtbrError.errno, FinalizeMulticastRouterSock st1)) :
    (InitMulticastRouterSock env st).1 = OtbrError.errno ∧
    (InitMulticastRouterSock env st).2.mMulticastRouterSock = -1 ∧
    IsEnabled (InitMulticastRouterSock env st).2 = false := by
  rw [h]
  exact ⟨rfl, finalize_sock st1, by simp [IsEnabled, finalize_sock st1]⟩

/-- C6: if any step of the enable sequence (socket creation, `MRT6_INIT`, the
ICMP6 block-all filter, either interface-name lookup, or either
`MRT6_ADD_MIF`) fails, the sequence rolls back completely: it returns the
`Errno` error, the socket fd is `-1` and the manager remains disabled. -/
theorem c6_enable_failure_rolls_back (env : InitEnv) (st : MRMState)
    (hdis : st.mMulticastRouterSock = -1)
    (hfail : env.socketFd = none ∨ env.mrt6InitOk = false ∨ env.icmp6FilterOk = false ∨
      env.threadIfIndex = 0 ∨ env.addMifThreadOk = false ∨ env.backboneIfIndex = 0 ∨
      env.addMifBackboneOk = false) :
    (InitMulticastRouterSock env st).1 = OtbrError.errno ∧
    (InitMulticastRouterSock env st).2.mMulticastRouterSock = -1 ∧
    IsEnabled (InitMulticastRouterSock env st).2 = false := by
  have hsock : ¬ st.mMulticastRouterSock ≠ -1 := by simp [hdis]
  rcases hs : env.socketFd with _ | fd
  · exact rollback_of_eq st (by simp [InitMulticastRouterSock, hsock, hs])
  · by_cases h1 : env.mrt6InitOk
    · by_cases h2 : env.icmp6FilterOk
      · by_cases h3 : env.threadIfIndex = 0
        · exact rollback_of_eq { st with mMulticastRouterSock := (fd : Int) }
            (by simp [InitMulticastRouterSock, hsock, hs, h1, h2, h3])
        · by_cases h4 : env.addMifThreadOk
          · by_cases h5 : env.backboneIfIndex = 0
            · exact rollback_of_eq { st with mMulticastRouterSock := (fd : Int) }
                (by simp [InitMulticastRouterSock, hsock, hs, h1, h2, h3, h4, h5])
            · by_cases h6 : env.addMifBackboneOk
              · rcases hfail with h | h | h | h | h | h | h <;> simp_all
              · exact rollback_of_eq { st with mMulticastRouterSock := (fd : Int) }
                  (by simp [InitMulticastRouterSock, hsock, hs, h1, h2, h3, h4, h5, h6])
          · exact rollback_of_eq { st with mMulticastRouterSock := (fd : Int) }
              (by simp [InitMulticastRouterSock, hsock, hs, h1, h2, h3, h4])
      · exact rollback_of_eq { st with mMulticastRouterSock := (fd : Int) }
          (by simp [InitMulticastRouterSock, hsock, hs, h1, h2])
    · exact rollback_of_eq { st with mMulticastRouterSock := (fd : Int) }
        (by simp [InitMulticastRouterSock, hsock, hs, h1])

/-- Witness for C6: the ICMP6 filter step fails on a fresh manager. -/
theorem c6_enable_failure_rolls_back_witness :
    initialState.mMulticastRouterSock = -1 ∧
    ((InitMulticastRouterSock ⟨some 3, true, false, 5, true, 6, true⟩ initialState).1 =
        OtbrError.errno ∧
      (InitMulticastRouterSock ⟨some 3, true, false, 5, true, 6, true⟩
            initialState).2.mMulticastRouterSock = -1 ∧
      IsEnabled (InitMulticastRouterSock ⟨some 3, true, false, 5, true, 6, true⟩
            initialState).2 = false) :=
  ⟨rfl, c6_enable_failure_rolls_back ⟨some 3, true, false, 5, true, 6, true⟩ initialState rfl
    (Or.inr (Or.inr (Or.inl rfl)))⟩

/-- A surviving entry of the expiry scan keeps its key. -/
theorem expireEntry_key (env : KernelEnv) (now : Nat)
    (e x : MulticastRoute × MulticastRouteInfo)
    (h : (ExpireEntry env now e).1 = some x) : x.1 = e.1 := by
  unfold ExpireEntry at h
  split at h
  · split at h
    · simp at h
      exact (congrArg Prod.fst h).symm
    · split at h
      · simp_all
      · simp_all
      · simp at h
        exact (congrArg Prod.fst h).symm
  · simp at h
    exact (congrArg Prod.fst h).symm

/-- Listener set is untouched by the expiry scan. -/
theorem expire_listeners (env : KernelEnv) (now : Nat) (st : MRMState) :
    (ExpireMulticastForwardingCache env now st).1.mListenerSet = st.mListenerSet := rfl

/-- An entry the scan maps to `some x` is in the scanned cache. -/
theorem expire_keeps (env : KernelEnv) (now : Nat) (st : MRMState)
    (e x : MulticastRoute × MulticastRouteInfo)
    (he : e ∈ st.mMulticastForwardingCache)
    (hx : (ExpireEntry env now e).1 = some x) :
    x ∈ (ExpireMulticastForwardingCache env now st).1.mMulticastForwardingCache :=
  List.mem_filterMap.mpr ⟨e, he, hx⟩

/-- A kernel action of one scan iteration is among the scan's actions. -/
theorem expire_act_mem (env : KernelEnv) (now : Nat) (st : MRMState)
    (e : MulticastRoute × MulticastRouteInfo) (a : KAction)
    (he : e ∈ st.mMulticastForwardingCache)
    (ha : a ∈ (ExpireEntry env now e).2) :
    a ∈ (ExpireMulticastForwardingCache env now st).2 :=
  List.mem_flatten.mpr ⟨(ExpireEntry env now e).2, List.mem_map.mpr ⟨e, he, rfl⟩, ha⟩

/-- An entry the scan erases leaves no entry under its key (given unique keys). -/
theorem expire_drops (env : KernelEnv) (now : Nat) (st : MRMState)
    (route : MulticastRoute) (info : MulticastRouteInfo)
    (hnod : (mfcKeys st.mMulticastForwardingCache).Nodup)
    (hmem : (route, info) ∈ st.mMulticastForwardingCache)
    (hnone : (ExpireEntry env now (route, info)).1 = none) :
    route ∉ mfcKeys (ExpireMulticastForwardingCache env now st).1.mMulticastForwardingCache := by
  intro hcontra
  simp only [mfcKeys] at hcontra hnod
  obtain ⟨x, hx, hxk⟩ := List.mem_map.mp hcontra
  obtain ⟨e, he, hsome⟩ := List.mem_filterMap.mp hx
  have hkey : x.1 = e.1 := expireEntry_key env now e x hsome
  have h1 : e.1 = route := by rw [← hkey, hxk]
  have hee : e = (route, info) := List.inj_on_of_nodup_map hnod he hmem h1
  rw [hee, hnone] at hsome
  cases hsome

/-- C5: in the expiry pass, an over-age entry whose successful counter query
yields `pktcnt - wrong_if` different from the stored `valid_pkt_cnt` is
retained with `valid_pkt_cnt` updated to the raw `pktcnt` and `last_use`
updated to now; an over-age entry whose `pktcnt - wrong_if` equals the stored
count is deleted from the kernel (`ENOENT` counted as success) and erased. -/
theorem c5_expiry_refresh_or_evict (env : KernelEnv) (now : Nat) (st : MRMState)
    (route : MulticastRoute) (info : MulticastRouteInfo) (c : SgCounters)
    (hnod : (mfcKeys st.mMulticastForwardingCache).Nodup)
    (hmem : (route, info) ∈ st.mMulticastForwardingCache)
    (hage : info.mLastUseTime + kMulticastForwardingCacheExpireTimeout < now)
    (hq : env.sgCnt route.mSrcAddr route.mGroupAddr = some c)
    (hdel : env.delMfc route.mSrcAddr route.mGroupAddr ≠ DelResult.err) :
    if sub64 c.pktcnt c.wrong_if ≠ info.mValidPktCnt then
      (route, { info with mValidPktCnt := c.pktcnt, mLastUseTime := now }) ∈
        (ExpireMulticastForwardingCache env now st).1.mMulticastForwardingCache
    else
      route ∉ mfcKeys (ExpireMulticastForwardingCache env now st).1.mMulticastForwardingCache ∧
      KAction.delMfc route.mSrcAddr route.mGroupAddr info.mIif ∈
        (ExpireMulticastForwardingCache env now st).2 := by
  by_cases hne : sub64 c.pktcnt c.wrong_if ≠ info.mValidPktCnt
  · rw [if_pos hne]
    apply expire_keeps env now st (route, info) _ hmem
    simp [ExpireEntry, hage, UpdateMulticastRouteInfo, hq, hne]
  · rw [if_neg hne]
    have heq : sub64 c.pktcnt c.wrong_if = info.mValidPktCnt := not_ne_iff.mp hne
    have hupd : UpdateMulticastRouteInfo env now route info = (false, info) := by
      simp [UpdateMulticastRouteInfo, hq, heq]
    rcases hd : env.delMfc route.mSrcAddr route.mGroupAddr with _ | _ | _
    · exact ⟨expire_drops env now st route info hnod hmem
          (by simp [ExpireEntry, hage, hupd, hd]),
        expire_act_mem env now st (route, info) _ hmem
          (by simp [ExpireEntry, hage, hupd, hd])⟩
    · exact ⟨expire_drops env now st route info hnod hmem
          (by simp [ExpireEntry, hage, hupd, hd]),
        expire_act_mem env now st (route, info) _ hmem
          (by simp [ExpireEntry, hage, hupd, hd])⟩
    · exact absurd hd hdel

/-- Witness for C5: the concrete over-age entry is refreshed (counter query
returns `pktcnt = 7`, `wrong_if = 0`, stored count 5). -/
theorem c5_expiry_refresh_or_evict_witness :
    (mfcKeys c3State.mMulticastForwardingCache).Nodup ∧
    (⟨⟨srcA, grpG1⟩, ⟨0, 5, kMifIndexThread, kMifIndexBackbone⟩⟩ ∈
      c3State.mMulticastForwardingCache) ∧
    (0 + kMulticastForwardingCacheExpireTimeout < 301) ∧
    c5Kernel.sgCnt srcA grpG1 = some ⟨0, 7, 0⟩ ∧
    c5Kernel.delMfc srcA grpG1 ≠ DelResult.err ∧
    (if sub64 7 0 ≠ 5 then
      (⟨srcA, grpG1⟩,
        ({ (⟨0, 5, kMifIndexThread, kMifIndexBackbone⟩ : MulticastRouteInfo) with
            mValidPktCnt := 7, mLastUseTime := 301 }) ) ∈
        (ExpireMulticastForwardingCache c5Kernel 301 c3State).1.mMulticastForwardingCache
    else
      (⟨srcA, grpG1⟩ : MulticastRoute) ∉
        mfcKeys (ExpireMulticastForwardingCache c5Kernel 301 c3State).1.mMulticastForwardingCache ∧
      KAction.delMfc srcA grpG1 kMifIndexBackbone ∈
        (ExpireMulticastForwardingCache c5Kernel 301 c3State).2) :=
  ⟨by decide, by decide, by decide, rfl, by decide,
    c5_expiry_refresh_or_evict c5Kernel 301 c3State ⟨srcA, grpG1⟩
      ⟨0, 5, kMifIndexThread, kMifIndexBackbone⟩ ⟨0, 7, 0⟩
      (by decide) (by decide) (by decide) rfl (by decide)⟩

/-- C3 counterexample: an over-age entry whose counter query fails is not
kept — the expiry pass deletes it from the kernel (a `MRT6_DEL_MFC` action is
issued) and erases it from the in-memory MFC. -/
theorem c3_counterexample :
    ((0 : Nat) + kMulticastForwardingCacheExpireTimeout < 301) ∧
    traceKernel.sgCnt srcA grpG1 = none ∧
    (ExpireMulticastForwardingCache traceKernel 301 c3State).1.mMulticastForwardingCache = [] ∧
    (ExpireMulticastForwardingCache traceKernel 301 c3State).2 =
      [KAction.delMfc srcA grpG1 kMifIndexBackbone] :=
  ⟨by decide, rfl, by decide, by decide⟩

/-- C3 amended: in the expiry pass, an over-age entry whose counter query
fails is treated as expired: a kernel `MRT6_DEL_MFC` is issued for it and the
entry is erased from the in-memory MFC when the delete succeeds or fails with
`ENOENT`; it stays (unchanged) only when the delete fails otherwise. -/
theorem c3_amended_query_failure_expires (env : KernelEnv) (now : Nat) (st : MRMState)
    (route : MulticastRoute) (info : MulticastRouteInfo)
    (hnod : (mfcKeys st.mMulticastForwardingCache).Nodup)
    (hmem : (route, info) ∈ st.mMulticastForwardingCache)
    (hage : info.mLastUseTime + kMulticastForwardingCacheExpireTimeout < now)
    (hq : env.sgCnt route.mSrcAddr route.mGroupAddr = none) :
    KAction.delMfc route.mSrcAddr route.mGroupAddr info.mIif ∈
      (ExpireMulticastForwardingCache env now st).2 ∧
    (if env.delMfc route.mSrcAddr route.mGroupAddr = DelResult.err then
      (route, info) ∈ (ExpireMulticastForwardingCache env now st).1.mMulticastForwardingCache
    else
      route ∉ mfcKeys (ExpireMulticastForwardingCache env now st).1.mMulticastForwardingCache) := by
  have hupd : UpdateMulticastRouteInfo env now route info = (false, info) := by
    simp [UpdateMulticastRouteInfo, hq]
  constructor
  · apply expire_act_mem env now st (route, info) _ hmem
    rcases hd : env.delMfc route.mSrcAddr route.mGroupAddr with _ | _ | _ <;>
      simp [ExpireEntry, hage, hupd, hd]
  · rcases hd : env.delMfc route.mSrcAddr route.mGroupAddr with _ | _ | _
    · rw [if_neg (by simp [hd])]
      exact expire_drops env now st route info hnod hmem (by simp [ExpireEntry, hage, hupd, hd])
    · rw [if_neg (by simp [hd])]
      exact expire_drops env now st route info hnod hmem (by simp [ExpireEntry, hage, hupd, hd])
    · rw [if_pos rfl]
      exact expire_keeps env now st (route, info) _ hmem (by simp [ExpireEntry, hage, hupd, hd])

/-- Witness for the amended C3 on the concrete over-age entry. -/
theorem c3_amended_query_failure_expires_witness :
    (mfcKeys c3State.mMulticastForwardingCache).Nodup ∧
    (⟨⟨srcA, grpG1⟩, ⟨0, 5, kMifIndexThread, kMifIndexBackbone⟩⟩ ∈
      c3State.mMulticastForwardingCache) ∧
    ((0 : Nat) + kMulticastForwardingCacheExpireTimeout < 301) ∧
    traceKernel.sgCnt srcA grpG1 = none ∧
    (KAction.delMfc srcA grpG1 kMifIndexBackbone ∈
        (ExpireMulticastForwardingCache traceKernel 301 c3State).2 ∧
      (if traceKernel.delMfc srcA grpG1 = DelResult.err then
        (⟨srcA, grpG1⟩, (⟨0, 5, kMifIndexThread, kMifIndexBackbone⟩ : MulticastRouteInfo)) ∈
          (ExpireMulticastForwardingCache traceKernel 301 c3State).1.mMulticastForwardingCache
      else
        (⟨srcA, grpG1⟩ : MulticastRoute) ∉
          mfcKeys (ExpireMulticastForwardingCache traceKernel 301
            c3State).1.mMulticastForwardingCache)) :=
  ⟨by decide, by decide, by decide, rfl,
    c3_amended_query_failure_expires traceKernel 301 c3State ⟨srcA, grpG1⟩
      ⟨0, 5, kMifIndexThread, kMifIndexBackbone⟩ (by decide) (by decide) (by decide) rfl⟩

/-- Assigning a key stores exactly the assigned pair. -/
theorem mem_mfcInsert_self (m : List (MulticastRoute × MulticastRouteInfo))
    (k : MulticastRoute) (v : MulticastRouteInfo) : (k, v) ∈ mfcInsert m k v := by
  unfold mfcInsert
  split
  · rename_i h
    simp only [mfcKeys] at h
    obtain ⟨e, he, hek⟩ := List.mem_map.mp h
    exact List.mem_map.mpr ⟨e, he, by simp [hek]⟩
  · exact List.mem_append_right _ (List.mem_singleton_self _)

/-- The result of a validated, kernel-accepted `AddMulticastForwardingCache`
call, with the stored MIF expressed through the spec's policy table. -/
theorem addMFC_valid_eq (env : KernelEnv) (now : Nat) (st : MRMState)
    (src grp : Ip6Address) (aIif : Nat)
    (hiif : aIif = kMifIndexThread ∨ aIif = kMifIndexBackbone)
    (hok : env.addMfcOk src grp = true) :
    AddMulticastForwardingCache env now st src grp aIif =
      (OtbrError.noError,
       { (ExpireMulticastForwardingCache env now st).1 with
          mMulticastForwardingCache :=
            mfcInsert (ExpireMulticastForwardingCache env now st).1.mMulticastForwardingCache
              ⟨src, grp⟩ ⟨now, 0, specPolicyOif st.mListenerSet grp aIif, aIif⟩ },
       (ExpireMulticastForwardingCache env now st).2 ++
         [KAction.addMfc src grp aIif
            (if specPolicyOif st.mListenerSet grp aIif ≠ kMifIndexNone
             then [specPolicyOif st.mListenerSet grp aIif] else [])]) := by
  rcases hiif with hA | hA <;> subst hA <;>
    simp [AddMulticastForwardingCache, specPolicyOif, kMifIndexThread, kMifIndexBackbone,
      kMifIndexNone, hok, expire_listeners]

/-- C4: for an upcall processed while enabled, the MIF stored for the new MFC
entry (and the ifset of the issued `MRT6_ADD_MFC`) is exactly the policy
table's output: Thread for Backbone-inbound traffic of a registered listener
group, a block entry (`None`, empty ifset) for an unregistered one, Backbone
for Thread-inbound traffic of scope wider than realm-local, and a block entry
otherwise. -/
theorem c4_policy_forward_mif (env : KernelEnv) (now : Nat) (st : MRMState)
    (src grp : Ip6Address) (aIif : Nat)
    (_hen : IsEnabled st = true)
    (hiif : aIif = kMifIndexThread ∨ aIif = kMifIndexBackbone)
    (hok : env.addMfcOk src grp = true) :
    (⟨src, grp⟩,
      (⟨now, 0, specPolicyOif st.mListenerSet grp aIif, aIif⟩ : MulticastRouteInfo)) ∈
      (AddMulticastForwardingCache env now st src grp aIif).2.1.mMulticastForwardingCache ∧
    KAction.addMfc src grp aIif
        (if specPolicyOif st.mListenerSet grp aIif = kMifIndexNone then []
         else [specPolicyOif st.mListenerSet grp aIif]) ∈
      (AddMulticastForwardingCache env now st src grp aIif).2.2 := by
  rw [addMFC_valid_eq env now st src grp aIif hiif hok]
  constructor
  · exact mem_mfcInsert_self _ _ _
  · refine List.mem_append_right _ ?_
    by_cases hx : specPolicyOif st.mListenerSet grp aIif = kMifIndexNone <;> simp [hx]

/-- Witness for C4: a Backbone-side upcall for the registered group. -/
theorem c4_policy_forward_mif_witness :
    IsEnabled traceS2 = true ∧ traceKernel.addMfcOk srcA grpG1 = true ∧
    ((⟨srcA, grpG1⟩,
        (⟨20, 0, specPolicyOif traceS2.mListenerSet grpG1 kMifIndexBackbone,
          kMifIndexBackbone⟩ : MulticastRouteInfo)) ∈
        (AddMulticastForwardingCache traceKernel 20 traceS2 srcA grpG1
            kMifIndexBackbone).2.1.mMulticastForwardingCache ∧
      KAction.addMfc srcA grpG1 kMifIndexBackbone
          (if specPolicyOif traceS2.mListenerSet grpG1 kMifIndexBackbone = kMifIndexNone
           then [] else [specPolicyOif traceS2.mListenerSet grpG1 kMifIndexBackbone]) ∈
        (AddMulticastForwardingCache traceKernel 20 traceS2 srcA grpG1
            kMifIndexBackbone).2.2) :=
  ⟨by decide, rfl,
    c4_policy_forward_mif traceKernel 20 traceS2 srcA grpG1 kMifIndexBackbone
      (by decide) (Or.inr rfl) rfl⟩

/-- An unblock-scan iteration keeps the key of its entry. -/
theorem unblockEntry_key (env : KernelEnv) (now : Nat) (g : Ip6Address)
    (e : MulticastRoute × MulticastRouteInfo) :
    ((UnblockEntry env now g e).1).1 = e.1 := by
  unfold UnblockEntry
  split
  · rfl
  · split <;> rfl

/-- The image of an entry under the unblock scan is in the scanned cache. -/
theorem unblock_mem (env : KernelEnv) (now : Nat) (st : MRMState) (g : Ip6Address)
    (e : MulticastRoute × MulticastRouteInfo)
    (he : e ∈ st.mMulticastForwardingCache) :
    (UnblockEntry env now g e).1 ∈
      (UnblockInboundMulticastForwardingCache env now st g).1.mMulticastForwardingCache :=
  List.mem_map.mpr ⟨e, he, rfl⟩

/-- A kernel action of one unblock iteration is among the scan's actions. -/
theorem unblock_act_mem (env : KernelEnv) (now : Nat) (st : MRMState) (g : Ip6Address)
    (e : MulticastRoute × MulticastRouteInfo) (a : KAction)
    (he : e ∈ st.mMulticastForwardingCache)
    (ha : a ∈ (UnblockEntry env now g e).2) :
    a ∈ (UnblockInboundMulticastForwardingCache env now st g).2 :=
  List.mem_flatten.mpr ⟨(UnblockEntry env now g e).2, List.mem_map.mpr ⟨e, he, rfl⟩, ha⟩

/-- C8: `Add(g)` on an enabled manager rewrites every MFC entry with
iif Backbone, oif different from Thread and group `g` to oif Thread — issuing
a kernel `MRT6_ADD_MFC` with ifset `{Thread}` for that exact `(src, group)` —
while every entry for another group, every already-forwarding entry and every
entry with iif Thread stays in the cache unmodified. -/
theorem c8_add_unblocks_matching (env : KernelEnv) (now : Nat) (st : MRMState)
    (g : Ip6Address) (route : MulticastRoute) (info : MulticastRouteInfo)
    (hen : IsEnabled st = true)
    (hmem : (route, info) ∈ st.mMulticastForwardingCache)
    (hok : env.addMfcOk route.mSrcAddr route.mGroupAddr = true) :
    ((info.mIif = kMifIndexBackbone ∧ info.mOif ≠ kMifIndexThread ∧ route.mGroupAddr = g) →
      ((route, (⟨now, 0, kMifIndexThread, info.mIif⟩ : MulticastRouteInfo)) ∈
          (Add env now st g).1.mMulticastForwardingCache ∧
        KAction.addMfc route.mSrcAddr g kMifIndexBackbone [kMifIndexThread] ∈
          (Add env now st g).2)) ∧
    ((info.mIif ≠ kMifIndexBackbone ∨ info.mOif = kMifIndexThread ∨ route.mGroupAddr ≠ g) →
      (route, info) ∈ (Add env now st g).1.mMulticastForwardingCache) := by
  have hAdd : Add env now st g = UnblockInboundMulticastForwardingCache env now
      { st with mListenerSet :=
          if g ∈ st.mListenerSet then st.mListenerSet else g :: st.mListenerSet } g := by
    unfold Add
    rw [if_pos (show IsEnabled { st with mListenerSet :=
      if g ∈ st.mListenerSet then st.mListenerSet else g :: st.mListenerSet } = true from hen)]
  rw [hAdd]
  constructor
  · rintro ⟨hiif, hoif, hgrp⟩
    have hok2 : env.addMfcOk route.mSrcAddr g = true := by rw [← hgrp]; exact hok
    have hstep : UnblockEntry env now g (route, info) =
        ((route, (⟨now, 0, kMifIndexThread, info.mIif⟩ : MulticastRouteInfo)),
         [KAction.addMfc route.mSrcAddr g kMifIndexBackbone [kMifIndexThread]]) := by
      simp [UnblockEntry, hiif, hoif, hgrp, hok2]
    constructor
    · have hm := unblock_mem env now
        { st with mListenerSet :=
            if g ∈ st.mListenerSet then st.mListenerSet else g :: st.mListenerSet } g
        (route, info) hmem
      rw [hstep] at hm
      exact hm
    · apply unblock_act_mem env now
        { st with mListenerSet :=
            if g ∈ st.mListenerSet then st.mListenerSet else g :: st.mListenerSet } g
        (route, info) _ hmem
      rw [hstep]
      exact List.mem_singleton_self _
  · intro hskip
    have hstep : UnblockEntry env now g (route, info) = ((route, info), []) := by
      unfold UnblockEntry
      rw [if_pos hskip]
    have hm := unblock_mem env now
      { st with mListenerSet :=
          if g ∈ st.mListenerSet then st.mListenerSet else g :: st.mListenerSet } g
      (route, info) hmem
    rw [hstep] at hm
    exact hm

/-- Witness for C8: the blocked entry for `(srcA, grpG1)` is rewritten to
forward to Thread. -/
theorem c8_add_unblocks_matching_witness :
    IsEnabled c8State = true ∧
    (⟨⟨srcA, grpG1⟩, ⟨0, 0, kMifIndexNone, kMifIndexBackbone⟩⟩ ∈
      c8State.mMulticastForwardingCache) ∧
    traceKernel.addMfcOk srcA grpG1 = true ∧
    ((((⟨0, 0, kMifIndexNone, kMifIndexBackbone⟩ : MulticastRouteInfo).mIif = kMifIndexBackbone ∧
        (⟨0, 0, kMifIndexNone, kMifIndexBackbone⟩ : MulticastRouteInfo).mOif ≠ kMifIndexThread ∧
        (⟨srcA, grpG1⟩ : MulticastRoute).mGroupAddr = grpG1) →
      ((⟨srcA, grpG1⟩, (⟨50, 0, kMifIndexThread, kMifIndexBackbone⟩ : MulticastRouteInfo)) ∈
          (Add traceKernel 50 c8State grpG1).1.mMulticastForwardingCache ∧
        KAction.addMfc srcA grpG1 kMifIndexBackbone [kMifIndexThread] ∈
          (Add traceKernel 50 c8State grpG1).2)) ∧
    (((⟨0, 0, kMifIndexNone, kMifIndexBackbone⟩ : MulticastRouteInfo).mIif ≠ kMifIndexBackbone ∨
        (⟨0, 0, kMifIndexNone, kMifIndexBackbone⟩ : MulticastRouteInfo).mOif = kMifIndexThread ∨
        (⟨srcA, grpG1⟩ : MulticastRoute).mGroupAddr ≠ grpG1) →
      (⟨srcA, grpG1⟩, (⟨0, 0, kMifIndexNone, kMifIndexBackbone⟩ : MulticastRouteInfo)) ∈
        (Add traceKernel 50 c8State grpG1).1.mMulticastForwardingCache)) :=
  ⟨by decide, by decide, rfl,
    c8_add_unblocks_matching traceKernel 50 c8State grpG1 ⟨srcA, grpG1⟩
      ⟨0, 0, kMifIndexNone, kMifIndexBackbone⟩ (by decide) (by decide) rfl⟩

/-- C1 refutation: the state reached by `enable`, one Backbone-side upcall for
the registered group `ff05::abcd`, one Thread-side upcall for `ff0e::1`, and
then `disable`, is reachable, not enabled, and its in-memory MFC is *not*
empty — `Disable` (via `FinalizeMulticastRouterSock`) closes the socket but
never clears the in-memory MFC. -/
theorem c1_disable_keeps_mfc :
    Reachable (Disable traceS4) ∧ IsEnabled (Disable traceS4) = false ∧
      (Disable traceS4).mMulticastForwardingCache ≠ [] := by
  refine ⟨?_, by decide, by decide⟩
  exact Reachable.disable
    (Reachable.upcall traceKernel 20 srcA grpG1 kMifIndexBackbone
      (Reachable.upcall traceKernel 10 srcB grpG2 kMifIndexThread
        (Reachable.add traceKernel 0 grpG1
          (Reachable.enable traceInit Reachable.init))
        (by decide))
      (by decide))

/-- C2 refutation: in the reachable enabled state `traceS4` the in-memory MFC
holds the entry `(srcB, ff0e::1)` with iif Thread — a different group than
`ff05::abcd` — yet `Remove(ff05::abcd)` leaves the in-memory MFC completely
empty, because `RemoveInboundMulticastForwardingCache` ends with an
unconditional `clear()` after its selective loop (the loop alone would have
kept that entry). -/
theorem c2_remove_wipes_other_groups :
    Reachable traceS4 ∧ IsEnabled traceS4 = true ∧
      grpG1 ∈ traceS4.mListenerSet ∧
      ((⟨srcB, grpG2⟩ : MulticastRoute),
        (⟨10, 0, kMifIndexBackbone, kMifIndexThread⟩ : MulticastRouteInfo)) ∈
        traceS4.mMulticastForwardingCache ∧
      grpG2 ≠ grpG1 ∧
      (RemoveInboundLoop traceKernel traceS4 grpG1).1.mMulticastForwardingCache =
        [(⟨srcB, grpG2⟩, ⟨10, 0, kMifIndexBackbone, kMifIndexThread⟩)] ∧
      (Remove traceKernel traceS4 grpG1).1.mMulticastForwardingCache = [] := by
  refine ⟨?_, by decide, by decide, by decide, by decide, by decide, by decide⟩
  exact Reachable.upcall traceKernel 20 srcA grpG1 kMifIndexBackbone
    (Reachable.upcall traceKernel 10 srcB grpG2 kMifIndexThread
      (Reachable.add traceKernel 0 grpG1
        (Reachable.enable traceInit Reachable.init))
      (by decide))
    (by decide)

end MulticastRoutingManager
